import Mathlib

/-!
# Verification of the ff-three event-routing core and camera controller

Shallow embedding of the `RenderView` pointer/trigger routing logic
(`routeEvent`, `onPointer`, `onTrigger`, `removeViewport`) and of the
`CameraController` pose update (`updatePose`, `updateByMode`, `update`).

External collaborators (`Viewport`, `Picker`, `RenderSystem`, the core math
helper `limit`) are not part of this repository; where a claim depends on
them they are modelled from the spec, as noted on each definition.
-/

namespace FFThree

/-- Pointer event types from the external manip-target library.  Only
`hover` and `down` are inspected by the routing code; all other pointer
event kinds behave like `move`/`up` (no hit test, no pick). -/
inductive EPointerEventType where
  | down
  | move
  | up
  | hover
deriving DecidableEq, Repr

/-- Modelled from the spec: a `Viewport` is a rectangular sub-region of the
canvas.  The collaborator exposes `enabled` and `isPointInside`; we model
its bounds as a closed integer rectangle.  The `id` field stands for object
identity (distinct viewport objects created by `addViewport` are distinct
values). -/
structure Viewport where
  id : Nat
  enabled : Bool
  left : Int
  top : Int
  right : Int
  bottom : Int
deriving DecidableEq, Repr

/-- Modelled from the spec: bounds containment test of the `Viewport`
collaborator (`isPointInside(x, y)`). -/
def Viewport.isPointInside (vp : Viewport) (x y : Int) : Bool :=
  vp.left ≤ x && x ≤ vp.right && vp.top ≤ y && y ≤ vp.bottom

/-- Modelled from the spec: the viewport's local-to-device coordinate
conversion (`getDeviceX`). The claims only require that routing uses the
resolved viewport's conversion, not its exact formula. -/
def Viewport.getDeviceX (vp : Viewport) (x : Int) : Int :=
  x - vp.left

/-- Modelled from the spec: the viewport's local-to-device coordinate
conversion (`getDeviceY`). -/
def Viewport.getDeviceY (vp : Viewport) (y : Int) : Int :=
  y - vp.top

/-- A scene-graph component, as reachable from a picked object's
`userData` bag; `node` is the owning node (`component.node`). -/
structure Component where
  id : Nat
  node : Nat
deriving DecidableEq, Repr

/-- A three.js object as seen by the router: the pick lookup returns it and
its `userData` bag holds the owning component (the source dereferences that
component unconditionally after a successful lookup). -/
structure Object3D where
  id : Nat
  component : Component
deriving DecidableEq, Repr

/-- The render-system collaborator: active scene/camera (modelled by
presence of an identifier) and the index-to-object lookup
(`getObjectByIndex`). -/
structure RenderSystem where
  activeScene : Option Nat
  activeCamera : Option Nat
  getObjectByIndex : Nat → Option Object3D

/-- An input event as consumed by the router: type tag, primary flag and
viewport-local coordinates.  Trigger events reuse the same shape (their
type tag is never inspected by the routing code). -/
structure InputEvent where
  ptype : EPointerEventType
  isPrimary : Bool
  localX : Int
  localY : Int
deriving DecidableEq, Repr

/-- The mutable per-view routing state of `RenderView`: the registered
viewport list and the sticky active triplet. -/
structure RenderView where
  viewports : List Viewport
  activeViewport : Option Viewport
  activeObject3D : Option Object3D
  activeComponent : Option Component
deriving DecidableEq, Repr

/-- A freshly constructed view: no active viewport, object or component. -/
def RenderView.initial (viewports : List Viewport) : RenderView :=
  { viewports := viewports
    activeViewport := none
    activeObject3D := none
    activeComponent := none }

/-- The picker collaborator: `pickIndex(scene, camera, event)` returns an
integer object index (0 is the background sentinel). -/
def PickFn : Type := Nat → Nat → InputEvent → Nat

/-- The routed event built by `routeEvent`: the input event augmented with
the resolved viewport, device coordinates, the propagation-stop flag and
the picked object / component / node. -/
structure RoutedEvent where
  viewport : Viewport
  deviceX : Int
  deviceY : Int
  stopPropagation : Bool
  object3D : Option Object3D
  component : Option Component
  node : Option Nat
deriving DecidableEq, Repr

/-- The hit-test loop of `routeEvent`: scan the viewport list in
registration order, return the first enabled viewport containing the
point. -/
def hitTest : List Viewport → Int → Int → Option Viewport
  | [], _, _ => none
  | vp :: rest, x, y =>
    if vp.enabled && vp.isPointInside x y then some vp
    else hitTest rest x y

/-- `RenderView.routeEvent`.  The source's `system` and `picker` fields are
references to external collaborators; they appear here as the explicit
parameters `sys` and `pick`.  Returns the routed event (or `none` when the
event is cancelled) together with the updated view state. -/
def RenderView.routeEvent (sys : RenderSystem) (pick : PickFn)
    (s : RenderView) (event : InputEvent) (doHitTest doPick : Bool) :
    Option RoutedEvent × RenderView :=
  -- local working copies of the active triplet
  let viewport0 := s.activeViewport
  -- if doHitTest, discard the carried viewport and scan all viewports
  let viewport :=
    if doHitTest then hitTest s.viewports event.localX event.localY
    else viewport0
  match viewport with
  | none => (none, s)   -- without an active viewport, cancel the event
  | some vp =>
    -- perform 3D pick, or carry the sticky object/component forward
    let picked : Option Object3D × Option Component :=
      if doPick then
        match sys.activeScene, sys.activeCamera with
        | some scene, some camera =>
          let index := pick scene camera event
          if index = 0 then (none, none)        -- background
          else
            match sys.getObjectByIndex index with
            | some obj => (some obj, some obj.component)
            | none => (none, none)
        | _, _ => (none, none)
      else (s.activeObject3D, s.activeComponent)
    let object3D := picked.1
    let component := picked.2
    let viewEvent : RoutedEvent :=
      { viewport := vp
        deviceX := vp.getDeviceX event.localX
        deviceY := vp.getDeviceY event.localY
        stopPropagation := false
        object3D := object3D
        component := component
        node := component.map Component.node }
    (some viewEvent,
      { s with
        activeViewport := some vp
        activeObject3D := object3D
        activeComponent := component })

/-- One delivery performed by the dispatch methods: the routed event is
offered to the render system, and possibly afterwards to the resolved
viewport. -/
inductive DispatchStep where
  | toSystem (ev : RoutedEvent)
  | toViewport (vp : Viewport) (ev : RoutedEvent)
deriving DecidableEq, Repr

/-- Result of a public dispatch method (`onPointer` / `onTrigger`): the
boolean the source returns, the routed event that was built (if any), the
deliveries performed in order, and the updated view state. -/
structure DispatchResult where
  handled : Bool
  routed : Option RoutedEvent
  steps : List DispatchStep
  state : RenderView
deriving Repr

/-- `RenderView.onPointer`.  `stops` models the render system's pointer
handler: it receives the routed event and yields the value of the event's
`stopPropagation` flag after the system handled it. -/
def RenderView.onPointer (sys : RenderSystem) (pick : PickFn)
    (stops : RoutedEvent → Bool) (s : RenderView) (event : InputEvent) :
    DispatchResult :=
  let doHitTest :=
    event.ptype = EPointerEventType.hover ||
      (event.isPrimary && event.ptype = EPointerEventType.down)
  let doPick := event.isPrimary && event.ptype = EPointerEventType.down
  match s.routeEvent sys pick event doHitTest doPick with
  | (some viewEvent, s1) =>
    if stops viewEvent then
      { handled := true
        routed := some viewEvent
        steps := [DispatchStep.toSystem viewEvent]
        state := s1 }
    else
      { handled := true
        routed := some viewEvent
        steps := [DispatchStep.toSystem viewEvent,
                  DispatchStep.toViewport viewEvent.viewport viewEvent]
        state := s1 }
  | (none, s1) =>
    { handled := false, routed := none, steps := [], state := s1 }

/-- `RenderView.onTrigger`: always routes with both hit test and pick;
`stops` models the render system's trigger handler. -/
def RenderView.onTrigger (sys : RenderSystem) (pick : PickFn)
    (stops : RoutedEvent → Bool) (s : RenderView) (event : InputEvent) :
    DispatchResult :=
  match s.routeEvent sys pick event true true with
  | (some viewEvent, s1) =>
    if stops viewEvent then
      { handled := true
        routed := some viewEvent
        steps := [DispatchStep.toSystem viewEvent]
        state := s1 }
    else
      { handled := true
        routed := some viewEvent
        steps := [DispatchStep.toSystem viewEvent,
                  DispatchStep.toViewport viewEvent.viewport viewEvent]
        state := s1 }
  | (none, s1) =>
    { handled := false, routed := none, steps := [], state := s1 }

/-- JavaScript `Array.prototype.indexOf`: index of the first occurrence,
or -1 when absent. -/
def jsIndexOf (l : List Viewport) (vp : Viewport) : Int :=
  match l with
  | [] => -1
  | w :: rest =>
    if w = vp then 0
    else
      let r := jsIndexOf rest vp
      if r < 0 then -1 else r + 1

/-- `RenderView.removeViewport`.  Mirrors the source: looks the viewport up
with `indexOf`, throws "viewport not found" when absent, and otherwise
calls the non-mutating `slice(index, 1)`, whose result is discarded — the
viewport list is left unchanged. -/
def RenderView.removeViewport (s : RenderView) (vp : Viewport) :
    Except String RenderView :=
  let index := jsIndexOf s.viewports vp
  if index < 0 then Except.error "viewport not found"
  else Except.ok s

/-- An input delivered to the view: a pointer event or a trigger event. -/
inductive ViewInput where
  | pointer (e : InputEvent)
  | trigger (e : InputEvent)
deriving DecidableEq, Repr

/-- Process one input through the matching public dispatch method. -/
def RenderView.processInput (sys : RenderSystem) (pick : PickFn)
    (stopsP stopsT : RoutedEvent → Bool) (s : RenderView) :
    ViewInput → DispatchResult
  | ViewInput.pointer e => s.onPointer sys pick stopsP e
  | ViewInput.trigger e => s.onTrigger sys pick stopsT e

/-- Run a sequence of pointer/trigger inputs through the view, collecting
every routed event that was produced, in order. -/
def RenderView.run (sys : RenderSystem) (pick : PickFn)
    (stopsP stopsT : RoutedEvent → Bool) (s : RenderView) :
    List ViewInput → List RoutedEvent × RenderView
  | [] => ([], s)
  | i :: rest =>
    let r := s.processInput sys pick stopsP stopsT i
    let tail := RenderView.run sys pick stopsP stopsT r.state rest
    (r.routed.toList ++ tail.1, tail.2)

/-! ## CameraController -/

/-- A three-component vector, with rational components standing for the
source's floating-point numbers. -/
structure Vec3 where
  x : ℚ
  y : ℚ
  z : ℚ
deriving DecidableEq, Repr

/-- Componentwise interval membership `lo ≤ v ≤ hi`. -/
def Vec3.between (lo v hi : Vec3) : Prop :=
  lo.x ≤ v.x ∧ v.x ≤ hi.x ∧ lo.y ≤ v.y ∧ v.y ≤ hi.y ∧ lo.z ≤ v.z ∧ v.z ≤ hi.z

instance (lo v hi : Vec3) : Decidable (Vec3.between lo v hi) := by
  unfold Vec3.between
  infer_instance

/-- Componentwise `≤` on vectors (used to say the limit intervals are
non-empty). -/
def Vec3.le (a b : Vec3) : Prop :=
  a.x ≤ b.x ∧ a.y ≤ b.y ∧ a.z ≤ b.z

instance (a b : Vec3) : Decidable (Vec3.le a b) := by
  unfold Vec3.le
  infer_instance

/-- Modelled from the spec: the external core library's clamping helper
`math.limit(v, min, max)` (`v < min ? min : (v > max ? max : v)`). -/
def limit (v lo hi : ℚ) : ℚ :=
  if v < lo then lo else if v > hi then hi else v

/-- Manipulation modes of the camera controller. -/
inductive EManipMode where
  | off
  | pan
  | orbit
  | dolly
  | zoom
  | panDolly
  | roll
deriving DecidableEq, Repr

/-- Manipulation phases of the camera controller. -/
inductive EManipPhase where
  | off
  | active
  | release
deriving DecidableEq, Repr

/-- The state of `CameraController` relevant to pose updates.  The wrapped
camera object and the pinch bookkeeping driven by raw pointer input are
not modelled (their updates involve no pose math). -/
structure CameraController where
  orbit : Vec3
  offset : Vec3
  minOrbit : Vec3
  maxOrbit : Vec3
  minOffset : Vec3
  maxOffset : Vec3
  orientationEnabled : Bool
  offsetEnabled : Bool
  mode : EManipMode
  phase : EManipPhase
  deltaX : ℚ
  deltaY : ℚ
  deltaPinch : ℚ
  deltaWheel : ℚ
  viewportWidth : ℚ
  viewportHeight : ℚ
deriving DecidableEq, Repr

/-- `CameraController.updatePose(dX, dY, dScale, dPitch, dHead, dRoll)`:
apply the deltas to the orbit and offset vectors and clamp each component
against the configured limits.  Note the source computes
`factor = offset.z = dScale * offset.z` first, then shifts `offset.x/y`
using that factor, then clamps all three offset components. -/
def CameraController.updatePose (c : CameraController)
    (dX dY dScale dPitch dHead dRoll : ℚ) : CameraController :=
  let inverse : ℚ := -1
  let c1 :=
    if c.orientationEnabled then
      let ox := c.orbit.x + inverse * dPitch * 300 / c.viewportHeight
      let oy := c.orbit.y + inverse * dHead * 300 / c.viewportHeight
      let oz := c.orbit.z + inverse * dRoll * 300 / c.viewportHeight
      { c with orbit :=
          { x := limit ox c.minOrbit.x c.maxOrbit.x
            y := limit oy c.minOrbit.y c.maxOrbit.y
            z := limit oz c.minOrbit.z c.maxOrbit.z } }
    else c
  if c1.offsetEnabled then
    let factor := dScale * c1.offset.z
    let nx := c1.offset.x + dX * factor * inverse / c1.viewportHeight
    let ny := c1.offset.y - dY * factor * inverse / c1.viewportHeight
    { c1 with offset :=
        { x := limit nx c1.minOffset.x c1.maxOffset.x
          y := limit ny c1.minOffset.y c1.maxOffset.y
          z := limit factor c1.minOffset.z c1.maxOffset.z } }
  else c1

/-- `CameraController.updateByMode`: dispatch the accumulated deltas to
`updatePose` according to the current manipulation mode. -/
def CameraController.updateByMode (c : CameraController) : CameraController :=
  match c.mode with
  | EManipMode.orbit => c.updatePose 0 0 1 c.deltaY c.deltaX 0
  | EManipMode.pan => c.updatePose c.deltaX c.deltaY 1 0 0 0
  | EManipMode.roll => c.updatePose 0 0 1 0 0 c.deltaX
  | EManipMode.dolly => c.updatePose 0 0 (c.deltaY * (75 / 10000) + 1) 0 0 0
  | EManipMode.panDolly =>
    let pinchScale := (c.deltaPinch - 1) * (1 / 2) + 1
    c.updatePose c.deltaX c.deltaY (1 / pinchScale) 0 0 0
  | _ => c

/-- `CameraController.update`: the per-frame manipulator update.  Returns
whether the state changed together with the new controller state. -/
def CameraController.update (c : CameraController) :
    Bool × CameraController :=
  if c.phase = EManipPhase.off ∧ c.deltaWheel = 0 then (false, c)
  else if c.deltaWheel ≠ 0 then
    let c1 := c.updatePose 0 0 (c.deltaWheel * (7 / 100) + 1) 0 0 0
    (true, { c1 with deltaWheel := 0 })
  else if c.phase = EManipPhase.active then
    if c.deltaX = 0 ∧ c.deltaY = 0 ∧ c.deltaPinch = 1 then (false, c)
    else
      let c1 := c.updateByMode
      (true, { c1 with deltaX := 0, deltaY := 0, deltaPinch := 1 })
  else if c.phase = EManipPhase.release then
    let c1 := { c with
      deltaX := c.deltaX * (85 / 100)
      deltaY := c.deltaY * (85 / 100)
      deltaPinch := 1 }
    let c2 := c1.updateByMode
    let delta := |c2.deltaX| + |c2.deltaY|
    if delta < 1 / 10 then
      (true, { c2 with mode := EManipMode.off, phase := EManipPhase.off })
    else (true, c2)
  else (false, c)

/-! ## Concrete fixtures

Small closed instances used to evaluate the development on concrete
inputs. -/

/-- A sample component (id 7) owned by node 3. -/
def comp1 : Component := ⟨7, 3⟩

/-- A sample pickable object carrying `comp1`. -/
def obj1 : Object3D := ⟨5, comp1⟩

/-- An enabled viewport covering the rectangle [0,10] × [0,10]. -/
def vpA : Viewport := ⟨1, true, 0, 0, 10, 10⟩

/-- An enabled viewport covering [20,30] × [0,10]. -/
def vpB : Viewport := ⟨2, true, 20, 0, 30, 10⟩

/-- A render system with active scene, active camera and one object at
index 1. -/
def sys1 : RenderSystem :=
  ⟨some 0, some 0, fun i => if i = 1 then some obj1 else none⟩

/-- A render system with no active scene or camera and an empty lookup. -/
def sysEmpty : RenderSystem := ⟨none, none, fun _ => none⟩

/-- A picker that always reports object index 1. -/
def pick1 : PickFn := fun _ _ _ => 1

/-- A picker that always reports the background (index 0). -/
def pick0 : PickFn := fun _ _ _ => 0

/-- A picker that always reports index 9, absent from `sys1`'s lookup. -/
def pick9 : PickFn := fun _ _ _ => 9

/-- A render-system handler that never stops propagation. -/
def noStops : RoutedEvent → Bool := fun _ => false

/-- A primary pointer-down at (5, 5), inside `vpA`. -/
def ePrimaryDown : InputEvent := ⟨EPointerEventType.down, true, 5, 5⟩

/-- A pointer-move at (6, 6). -/
def eMove : InputEvent := ⟨EPointerEventType.move, false, 6, 6⟩

/-- A hover at (50, 50), outside every fixture viewport. -/
def eHoverOutside : InputEvent := ⟨EPointerEventType.hover, false, 50, 50⟩

/-- A view whose registry is `[vpA]` with `vpA` already active (as after a
successful earlier hit test). -/
def s9 : RenderView :=
  { viewports := [vpA]
    activeViewport := some vpA
    activeObject3D := none
    activeComponent := none }

/-- The routed event produced by `ePrimaryDown` on `RenderView.initial
[vpA]` under `sys1` and `pick1`. -/
def evDown : RoutedEvent :=
  ⟨vpA, 5, 5, false, some obj1, some comp1, some 3⟩

/-! ## Basic lemmas about the hit test and `routeEvent` -/

/-- The hit-test loop is exactly a first-match search over the viewport
list in registration order. -/
theorem hitTest_eq_find (l : List Viewport) (x y : Int) :
    hitTest l x y =
      l.find? (fun vp => vp.enabled && vp.isPointInside x y) := by
  induction l with
  | nil => rfl
  | cons vp rest ih =>
    by_cases h : (vp.enabled && vp.isPointInside x y) = true
    · simp [hitTest, List.find?, h]
    · simp only [Bool.not_eq_true] at h
      simp [hitTest, List.find?, h, ih]

/-- A successful hit test returns a registered viewport that is enabled and
contains the point. -/
theorem hitTest_mem (l : List Viewport) (x y : Int) (vp : Viewport)
    (h : hitTest l x y = some vp) :
    vp ∈ l ∧ vp.enabled = true ∧ vp.isPointInside x y = true := by
  induction l with
  | nil => simp [hitTest] at h
  | cons w rest ih =>
    by_cases hw : (w.enabled && w.isPointInside x y) = true
    · simp [hitTest, hw] at h
      subst h
      rw [Bool.and_eq_true] at hw
      exact ⟨List.mem_cons_self w rest, hw.1, hw.2⟩
    · simp only [Bool.not_eq_true] at hw
      simp [hitTest, hw] at h
      rcases ih h with ⟨hm, h1, h2⟩
      exact ⟨List.mem_cons_of_mem w hm, h1, h2⟩

/-- When the (possibly hit-tested) viewport resolves, `routeEvent` returns
an event on that viewport and stores the resolved triplet as the new
active state. -/
theorem routeEvent_resolved (sys : RenderSystem) (pick : PickFn)
    (s : RenderView) (e : InputEvent) (ht dp : Bool) (vp : Viewport)
    (h : (if ht then hitTest s.viewports e.localX e.localY
          else s.activeViewport) = some vp) :
    ∃ ev s2, s.routeEvent sys pick e ht dp = (some ev, s2) ∧
      ev.viewport = vp ∧
      ev.stopPropagation = false ∧
      ev.node = ev.component.map Component.node ∧
      s2 = { s with
        activeViewport := some vp
        activeObject3D := ev.object3D
        activeComponent := ev.component } := by
  simp only [RenderView.routeEvent]
  rw [h]
  exact ⟨_, _, rfl, rfl, rfl, rfl, rfl⟩

/-- When the (possibly hit-tested) viewport does not resolve, `routeEvent`
cancels the event and leaves the view state untouched. -/
theorem routeEvent_unresolved (sys : RenderSystem) (pick : PickFn)
    (s : RenderView) (e : InputEvent) (ht dp : Bool)
    (h : (if ht then hitTest s.viewports e.localX e.localY
          else s.activeViewport) = none) :
    s.routeEvent sys pick e ht dp = (none, s) := by
  simp only [RenderView.routeEvent]
  rw [h]

/-- Without a pick, the sticky object/component are carried forward. -/
theorem routeEvent_no_pick_carries (sys : RenderSystem) (pick : PickFn)
    (s : RenderView) (e : InputEvent) (ht : Bool) (vp : Viewport)
    (h : (if ht then hitTest s.viewports e.localX e.localY
          else s.activeViewport) = some vp) :
    ∃ ev s2, s.routeEvent sys pick e ht false = (some ev, s2) ∧
      ev.viewport = vp ∧
      ev.object3D = s.activeObject3D ∧
      ev.component = s.activeComponent := by
  simp only [RenderView.routeEvent]
  rw [h]
  exact ⟨_, _, rfl, rfl, rfl, rfl⟩

/-- A successful JavaScript `indexOf` (index ≥ 0) is exactly membership. -/
theorem jsIndexOf_nonneg_iff (l : List Viewport) (vp : Viewport) :
    (0 ≤ jsIndexOf l vp) ↔ vp ∈ l := by
  induction l with
  | nil => simp [jsIndexOf]
  | cons w rest ih =>
    by_cases hw : w = vp
    · subst hw
      simp [jsIndexOf]
    · by_cases hr : jsIndexOf rest vp < 0
      · have : vp ∉ rest := fun hmem => absurd (ih.mpr hmem) (not_le.mpr hr)
        simp [jsIndexOf, hw, hr, this, Ne.symm hw]
      · have hmem : vp ∈ rest := ih.mp (not_lt.mp hr)
        constructor
        · intro _
          exact List.mem_cons_of_mem w hmem
        · intro _
          simp only [jsIndexOf, if_neg hw]
          simp only [if_neg hr]
          have := not_lt.mp hr
          omega

/-- C1: with `doHitTest` set, the viewport resolved by `routeEvent` is the
first viewport in registration order that is enabled and whose bounds
contain the event's local coordinates (a `List.find?` over the registry);
when no enabled viewport contains the coordinates, `routeEvent` returns
nothing, and a pointer dispatch that hit-tests (hover, or primary down)
produces no routed event, performs no delivery, and reports the event as
not consumed. -/
theorem routeEvent_hitTest_selects_first (sys : RenderSystem)
    (pick : PickFn) (s : RenderView) (e : InputEvent) (dp : Bool) :
    ((s.routeEvent sys pick e true dp).1.map RoutedEvent.viewport =
      s.viewports.find?
        (fun vp => vp.enabled && vp.isPointInside e.localX e.localY)) ∧
    (∀ stops : RoutedEvent → Bool,
      s.viewports.find?
        (fun vp => vp.enabled && vp.isPointInside e.localX e.localY) = none →
      (e.ptype = EPointerEventType.hover ∨
        (e.isPrimary = true ∧ e.ptype = EPointerEventType.down)) →
      (s.onPointer sys pick stops e).routed = none ∧
      (s.onPointer sys pick stops e).steps = [] ∧
      (s.onPointer sys pick stops e).handled = false) := by
  constructor
  · rcases h : hitTest s.viewports e.localX e.localY with _ | vp
    · rw [routeEvent_unresolved sys pick s e true dp (by simpa using h)]
      rw [← hitTest_eq_find, h]
      rfl
    · rcases routeEvent_resolved sys pick s e true dp vp (by simpa using h)
        with ⟨ev, s2, heq, hvp, _, _, _⟩
      rw [heq, ← hitTest_eq_find, h]
      simp [hvp]
  · intro stops hfind hty
    have hht : hitTest s.viewports e.localX e.localY = none := by
      rw [hitTest_eq_find]
      exact hfind
    rcases hty with h | ⟨h1, h2⟩
    · have : e.ptype ≠ EPointerEventType.down := by
        rw [h]
        intro hcon
        cases hcon
      simp [RenderView.onPointer, h, this,
        routeEvent_unresolved sys pick s e true false (by simpa using hht)]
    · simp [RenderView.onPointer, h1, h2,
        routeEvent_unresolved sys pick s e true true (by simpa using hht)]

/-- C3: with `doPick` set and an active scene and camera, a pick index of 0
(the background sentinel) leaves the routed event's object and component
null. -/
theorem routeEvent_pick_background (sys : RenderSystem) (pick : PickFn)
    (s : RenderView) (e : InputEvent) (ht : Bool) (sc cam : Nat)
    (hs : sys.activeScene = some sc) (hc : sys.activeCamera = some cam)
    (hp : pick sc cam e = 0) :
    ∀ ev, (s.routeEvent sys pick e ht true).1 = some ev →
      ev.object3D = none ∧ ev.component = none := by
  intro ev hev
  rcases hvp : (if ht then hitTest s.viewports e.localX e.localY
      else s.activeViewport) with _ | vp
  · rw [routeEvent_unresolved sys pick s e ht true hvp] at hev
    cases hev
  · simp only [RenderView.routeEvent] at hev
    rw [hvp] at hev
    simp only [hs, hc, hp, if_pos rfl, if_true] at hev
    cases hev
    exact ⟨rfl, rfl⟩

/-- C4: with `doPick` set, when the pick cannot complete — no active scene,
no active camera, or a non-zero pick index absent from the render system's
index-to-object lookup — the routed event's object and component are null.
(The embedded `routeEvent` is a total function: none of these paths raises
an exception.) -/
theorem routeEvent_pick_failure_null (sys : RenderSystem) (pick : PickFn)
    (s : RenderView) (e : InputEvent) (ht : Bool)
    (h : sys.activeScene = none ∨ sys.activeCamera = none ∨
      (∀ sc cam, sys.activeScene = some sc → sys.activeCamera = some cam →
        pick sc cam e ≠ 0 ∧ sys.getObjectByIndex (pick sc cam e) = none)) :
    ∀ ev, (s.routeEvent sys pick e ht true).1 = some ev →
      ev.object3D = none ∧ ev.component = none := by
  intro ev hev
  rcases hvp : (if ht then hitTest s.viewports e.localX e.localY
      else s.activeViewport) with _ | vp
  · rw [routeEvent_unresolved sys pick s e ht true hvp] at hev
    cases hev
  · simp only [RenderView.routeEvent] at hev
    rw [hvp] at hev
    rcases hsc : sys.activeScene with _ | sc
    · rw [hsc] at hev
      cases hev
      exact ⟨rfl, rfl⟩
    · rcases hcam : sys.activeCamera with _ | cam
      · rw [hsc, hcam] at hev
        cases hev
        exact ⟨rfl, rfl⟩
      · rcases h with h | h | h
        · rw [hsc] at h
          cases h
        · rw [hcam] at h
          cases h
        · rcases h sc cam hsc hcam with ⟨hnz, hnone⟩
          rw [hsc, hcam] at hev
          simp only [if_neg hnz, hnone] at hev
          cases hev
          exact ⟨rfl, rfl⟩

/-- C6: `removeViewport` fails with the designated "viewport not found"
error exactly when the viewport is not in the registry; for a registered
viewport it succeeds without raising. -/
theorem removeViewport_error_iff (s : RenderView) (vp : Viewport) :
    (s.removeViewport vp = Except.error "viewport not found" ↔
      vp ∉ s.viewports) ∧
    (vp ∈ s.viewports → ∃ t, s.removeViewport vp = Except.ok t) := by
  constructor
  · constructor
    · intro h hmem
      rw [← jsIndexOf_nonneg_iff] at hmem
      simp only [RenderView.removeViewport, if_neg (not_lt.mpr hmem)] at h
      cases h
    · intro hmem
      have : jsIndexOf s.viewports vp < 0 := by
        by_contra hcon
        exact hmem ((jsIndexOf_nonneg_iff s.viewports vp).mp (not_lt.mp hcon))
      simp [RenderView.removeViewport, this]
  · intro hmem
    rw [← jsIndexOf_nonneg_iff] at hmem
    exact ⟨s, by simp [RenderView.removeViewport, not_lt.mpr hmem]⟩

/-- C6 witness. -/
theorem removeViewport_error_iff_witness :
    (Viewport.mk 1 true 0 0 4 4) ∈
      (RenderView.initial [Viewport.mk 1 true 0 0 4 4]).viewports ∧
    ∃ t, (RenderView.initial [Viewport.mk 1 true 0 0 4 4]).removeViewport
      (Viewport.mk 1 true 0 0 4 4) = Except.ok t :=
  ⟨by decide,
    (removeViewport_error_iff (RenderView.initial [Viewport.mk 1 true 0 0 4 4])
      (Viewport.mk 1 true 0 0 4 4)).2 (by decide)⟩

/-- C7: for a registered viewport, `removeViewport` leaves the view — in
particular the viewport list, argument included — completely unchanged:
the source calls the non-mutating `slice(index, 1)` and discards its
result. -/
theorem removeViewport_present_leaves_unchanged (s : RenderView)
    (vp : Viewport) (h : vp ∈ s.viewports) :
    s.removeViewport vp = Except.ok s := by
  rw [← jsIndexOf_nonneg_iff] at h
  simp [RenderView.removeViewport, not_lt.mpr h]

/-- C7 witness. -/
theorem removeViewport_present_leaves_unchanged_witness :
    (Viewport.mk 2 false 0 0 8 8) ∈
      (RenderView.initial
        [Viewport.mk 1 true 0 0 4 4, Viewport.mk 2 false 0 0 8 8]).viewports ∧
    (RenderView.initial
        [Viewport.mk 1 true 0 0 4 4, Viewport.mk 2 false 0 0 8 8]).removeViewport
      (Viewport.mk 2 false 0 0 8 8) =
      Except.ok (RenderView.initial
        [Viewport.mk 1 true 0 0 4 4, Viewport.mk 2 false 0 0 8 8]) :=
  ⟨by decide,
    removeViewport_present_leaves_unchanged
      (RenderView.initial
        [Viewport.mk 1 true 0 0 4 4, Viewport.mk 2 false 0 0 8 8])
      (Viewport.mk 2 false 0 0 8 8) (by decide)⟩

/-- C1 witness. -/
theorem routeEvent_hitTest_selects_first_witness :
    ((RenderView.initial [vpA]).onPointer sys1 pick1 noStops
        eHoverOutside).routed = none ∧
    ((RenderView.initial [vpA]).onPointer sys1 pick1 noStops
        eHoverOutside).steps = [] ∧
    ((RenderView.initial [vpA]).onPointer sys1 pick1 noStops
        eHoverOutside).handled = false :=
  (routeEvent_hitTest_selects_first sys1 pick1 (RenderView.initial [vpA])
    eHoverOutside false).2 noStops (by decide) (Or.inl (by decide))

/-- C3 witness. -/
theorem routeEvent_pick_background_witness :
    sys1.activeScene = some 0 ∧ sys1.activeCamera = some 0 ∧
    pick0 0 0 ePrimaryDown = 0 ∧
    (RoutedEvent.mk vpA 5 5 false none none none).object3D = none ∧
    (RoutedEvent.mk vpA 5 5 false none none none).component = none := by
  refine ⟨rfl, rfl, rfl, ?_⟩
  exact routeEvent_pick_background sys1 pick0 (RenderView.initial [vpA])
    ePrimaryDown true 0 0 rfl rfl rfl
    (RoutedEvent.mk vpA 5 5 false none none none) (by decide)

/-- C4 witness: index 9 is reported by the picker but absent from the
lookup. -/
theorem routeEvent_pick_failure_null_witness :
    (RoutedEvent.mk vpA 5 5 false none none none).object3D = none ∧
    (RoutedEvent.mk vpA 5 5 false none none none).component = none :=
  routeEvent_pick_failure_null sys1 pick9 (RenderView.initial [vpA])
    ePrimaryDown true
    (Or.inr (Or.inr (by
      intro sc cam hsc hcam
      cases hsc
      cases hcam
      exact ⟨by decide, rfl⟩)))
    (RoutedEvent.mk vpA 5 5 false none none none) (by decide)

/-- C9 counterexample: on view `s9` (registry `[vpA]`, active viewport
`vpA`), a hover at (50, 50) fails the hit test and `routeEvent` returns
nothing — yet the view's active-viewport state still holds `vpA`, and a
subsequent move routed without a hit test produces an event on `vpA`.
This refutes the claim that a failed hit test clears the active-viewport
state and suppresses subsequent no-hit-test events. -/
theorem routeEvent_hitTest_clear_counterexample :
    ((s9.routeEvent sysEmpty pick0 eHoverOutside true false).1 = none) ∧
    ((s9.routeEvent sysEmpty pick0 eHoverOutside true
        false).2.activeViewport = some vpA) ∧
    (((s9.routeEvent sysEmpty pick0 eHoverOutside true
        false).2.routeEvent sysEmpty pick0 eMove false
        false).1.map RoutedEvent.viewport = some vpA) := by
  decide

/-- C9 amended: with `doHitTest` set, `routeEvent` resolves the viewport
from the hit test alone (the previously active viewport is ignored during
resolution); but when no enabled viewport contains the coordinates it
returns nothing and leaves the view's state — active viewport included —
unchanged, so a subsequent event routed without a hit test still resolves
to the previously active viewport. -/
theorem routeEvent_failed_hitTest_keeps_state (sys : RenderSystem)
    (pick : PickFn) (s : RenderView) (e e2 : InputEvent) (dp : Bool)
    (h : hitTest s.viewports e.localX e.localY = none) :
    s.routeEvent sys pick e true dp = (none, s) ∧
    ∀ vp, s.activeViewport = some vp →
      ∃ ev2 s2,
        (s.routeEvent sys pick e true dp).2.routeEvent sys pick e2
          false false = (some ev2, s2) ∧ ev2.viewport = vp := by
  have hcancel : s.routeEvent sys pick e true dp = (none, s) :=
    routeEvent_unresolved sys pick s e true dp (by simpa using h)
  refine ⟨hcancel, ?_⟩
  intro vp hvp
  rw [hcancel]
  rcases routeEvent_no_pick_carries sys pick s e2 false vp (by simpa using hvp)
    with ⟨ev2, s2, heq, hviewport, _, _⟩
  exact ⟨ev2, s2, heq, hviewport⟩

/-- C9 amended witness. -/
theorem routeEvent_failed_hitTest_keeps_state_witness :
    s9.routeEvent sysEmpty pick0 eHoverOutside true false = (none, s9) ∧
    ∀ vp, s9.activeViewport = some vp →
      ∃ ev2 s2,
        (s9.routeEvent sysEmpty pick0 eHoverOutside true
          false).2.routeEvent sysEmpty pick0 eMove false false =
          (some ev2, s2) ∧ ev2.viewport = vp :=
  routeEvent_failed_hitTest_keeps_state sysEmpty pick0 s9 eHoverOutside
    eMove false (by decide)

/-- `onPointer` routes with the hit-test/pick flags computed from the
event type, and returns the routed event and state of that call. -/
theorem onPointer_routed_state (sys : RenderSystem) (pick : PickFn)
    (stops : RoutedEvent → Bool) (s : RenderView) (e : InputEvent)
    (ht dp : Bool)
    (hht : (e.ptype = EPointerEventType.hover ||
      (e.isPrimary && e.ptype = EPointerEventType.down)) = ht)
    (hdp : (e.isPrimary && e.ptype = EPointerEventType.down) = dp) :
    (s.onPointer sys pick stops e).routed =
      (s.routeEvent sys pick e ht dp).1 ∧
    (s.onPointer sys pick stops e).state =
      (s.routeEvent sys pick e ht dp).2 := by
  simp only [RenderView.onPointer]
  rw [hht, hdp]
  rcases hre : s.routeEvent sys pick e ht dp with ⟨r, s1⟩
  cases r with
  | none => exact ⟨rfl, rfl⟩
  | some ev =>
    by_cases hs : stops ev <;> simp [hs]

/-- `onTrigger` always routes with both hit test and pick. -/
theorem onTrigger_routed_state (sys : RenderSystem) (pick : PickFn)
    (stops : RoutedEvent → Bool) (s : RenderView) (e : InputEvent) :
    (s.onTrigger sys pick stops e).routed =
      (s.routeEvent sys pick e true true).1 ∧
    (s.onTrigger sys pick stops e).state =
      (s.routeEvent sys pick e true true).2 := by
  simp only [RenderView.onTrigger]
  rcases hre : s.routeEvent sys pick e true true with ⟨r, s1⟩
  cases r with
  | none => exact ⟨rfl, rfl⟩
  | some ev =>
    by_cases hs : stops ev <;> simp [hs]

/-- A successful `routeEvent` stores exactly the routed event's viewport,
object and component as the new active state, and never changes the
viewport registry. -/
theorem routeEvent_some_active (sys : RenderSystem) (pick : PickFn)
    (s : RenderView) (e : InputEvent) (ht dp : Bool) (ev : RoutedEvent)
    (s2 : RenderView)
    (h : s.routeEvent sys pick e ht dp = (some ev, s2)) :
    s2.activeViewport = some ev.viewport ∧
    s2.activeObject3D = ev.object3D ∧
    s2.activeComponent = ev.component ∧
    s2.viewports = s.viewports := by
  rcases hvp : (if ht then hitTest s.viewports e.localX e.localY
      else s.activeViewport) with _ | vp
  · rw [routeEvent_unresolved sys pick s e ht dp hvp] at h
    cases h
  · simp only [RenderView.routeEvent] at h
    rw [hvp] at h
    injection h with hfst hsnd
    injection hfst with hev
    subst hev
    subst hsnd
    exact ⟨rfl, rfl, rfl, rfl⟩

/-- C5: sticky selection.  If a primary pointer-down produced a routed
event (resolving viewport V and picked object O), then any subsequent
pointer-move dispatched on the resulting view state — routed with neither
hit test nor pick — produces a routed event with the same viewport V, the
same object O and the same component. -/
theorem onPointer_sticky (sys : RenderSystem) (pick : PickFn)
    (stops : RoutedEvent → Bool) (s : RenderView) (e1 e2 : InputEvent)
    (h1 : e1.isPrimary = true) (h2 : e1.ptype = EPointerEventType.down)
    (h3 : e2.ptype = EPointerEventType.move) (ev1 : RoutedEvent)
    (hr : (s.onPointer sys pick stops e1).routed = some ev1) :
    ∃ ev2,
      ((s.onPointer sys pick stops e1).state.onPointer sys pick stops
        e2).routed = some ev2 ∧
      ev2.viewport = ev1.viewport ∧
      ev2.object3D = ev1.object3D ∧
      ev2.component = ev1.component := by
  obtain ⟨hr1, hs1⟩ := onPointer_routed_state sys pick stops s e1 true true
    (by simp [h1, h2]) (by simp [h1, h2])
  rw [hr1] at hr
  set s1 := (s.routeEvent sys pick e1 true true).2 with hs1def
  have hre1 : s.routeEvent sys pick e1 true true = (some ev1, s1) := by
    rw [hs1def]
    rw [Prod.ext_iff]
    exact ⟨hr, rfl⟩
  obtain ⟨hav, hao, hac, _⟩ :=
    routeEvent_some_active sys pick s e1 true true ev1 s1 hre1
  obtain ⟨hr2, hs2⟩ := onPointer_routed_state sys pick stops s1 e2
    false false (by simp [h3]) (by simp [h3])
  rcases routeEvent_no_pick_carries sys pick s1 e2 false ev1.viewport
      (by simpa using hav)
    with ⟨ev2, s3, heq, hviewport, hobj, hcomp⟩
  refine ⟨ev2, ?_, hviewport, ?_, ?_⟩
  · rw [hs1, hr2, heq]
  · rw [hobj, hao]
  · rw [hcomp, hac]

/-- C5 witness: a primary down inside `vpA` picks `obj1`; a following
move keeps `vpA` and `obj1`. -/
theorem onPointer_sticky_witness :
    ePrimaryDown.isPrimary = true ∧
    ePrimaryDown.ptype = EPointerEventType.down ∧
    eMove.ptype = EPointerEventType.move ∧
    (((RenderView.initial [vpA]).onPointer sys1 pick1 noStops
        ePrimaryDown).routed = some evDown) ∧
    ∃ ev2,
      (((RenderView.initial [vpA]).onPointer sys1 pick1 noStops
        ePrimaryDown).state.onPointer sys1 pick1 noStops eMove).routed =
        some ev2 ∧
      ev2.viewport = evDown.viewport ∧
      ev2.object3D = evDown.object3D ∧
      ev2.component = evDown.component :=
  ⟨rfl, rfl, rfl, by decide,
    onPointer_sticky sys1 pick1 noStops (RenderView.initial [vpA])
      ePrimaryDown eMove rfl rfl rfl evDown (by decide)⟩

/-- The routing invariant: whenever the sticky active viewport is set, it
is one of the registered viewports and it is enabled. -/
def goodState (s : RenderView) : Prop :=
  ∀ vp, s.activeViewport = some vp → vp ∈ s.viewports ∧ vp.enabled = true

/-- `routeEvent` preserves the registry, preserves the routing invariant,
and only ever routes to a registered, enabled viewport. -/
theorem routeEvent_good (sys : RenderSystem) (pick : PickFn)
    (s : RenderView) (e : InputEvent) (ht dp : Bool) (hg : goodState s) :
    (s.routeEvent sys pick e ht dp).2.viewports = s.viewports ∧
    goodState (s.routeEvent sys pick e ht dp).2 ∧
    ∀ ev, (s.routeEvent sys pick e ht dp).1 = some ev →
      ev.viewport ∈ s.viewports ∧ ev.viewport.enabled = true := by
  rcases hvp : (if ht then hitTest s.viewports e.localX e.localY
      else s.activeViewport) with _ | vp
  · rw [routeEvent_unresolved sys pick s e ht dp hvp]
    exact ⟨rfl, hg, fun ev h => by cases h⟩
  · have hvpgood : vp ∈ s.viewports ∧ vp.enabled = true := by
      cases ht with
      | false =>
        simp only [if_neg, Bool.false_eq_true, if_false] at hvp
        exact hg vp hvp
      | true =>
        simp only [if_pos, if_true] at hvp
        obtain ⟨hm, he, _⟩ := hitTest_mem s.viewports e.localX e.localY vp hvp
        exact ⟨hm, he⟩
    rcases routeEvent_resolved sys pick s e ht dp vp hvp
      with ⟨ev, s2, heq, hviewport, _, _, hs2⟩
    rw [heq]
    refine ⟨by rw [hs2], ?_, ?_⟩
    · intro w hw
      rw [hs2] at hw
      simp only at hw
      cases hw
      rw [hs2]
      exact hvpgood
    · intro ev' h
      cases h
      rw [hviewport]
      exact hvpgood

/-- Each public dispatch call preserves the registry and the routing
invariant, and only routes to a registered, enabled viewport. -/
theorem processInput_good (sys : RenderSystem) (pick : PickFn)
    (stopsP stopsT : RoutedEvent → Bool) (s : RenderView) (i : ViewInput)
    (hg : goodState s) :
    (s.processInput sys pick stopsP stopsT i).state.viewports =
      s.viewports ∧
    goodState (s.processInput sys pick stopsP stopsT i).state ∧
    ∀ ev, (s.processInput sys pick stopsP stopsT i).routed = some ev →
      ev.viewport ∈ s.viewports ∧ ev.viewport.enabled = true := by
  cases i with
  | pointer e =>
    obtain ⟨hr, hs⟩ := onPointer_routed_state sys pick stopsP s e
      (e.ptype = EPointerEventType.hover ||
        (e.isPrimary && e.ptype = EPointerEventType.down))
      (e.isPrimary && e.ptype = EPointerEventType.down) rfl rfl
    obtain ⟨g1, g2, g3⟩ := routeEvent_good sys pick s e
      (e.ptype = EPointerEventType.hover ||
        (e.isPrimary && e.ptype = EPointerEventType.down))
      (e.isPrimary && e.ptype = EPointerEventType.down) hg
    exact ⟨by rw [RenderView.processInput, hs]; exact g1,
      by rw [RenderView.processInput, hs]; exact g2,
      fun ev h => g3 ev (by rw [RenderView.processInput, hr] at h; exact h)⟩
  | trigger e =>
    obtain ⟨hr, hs⟩ := onTrigger_routed_state sys pick stopsT s e
    obtain ⟨g1, g2, g3⟩ := routeEvent_good sys pick s e true true hg
    exact ⟨by rw [RenderView.processInput, hs]; exact g1,
      by rw [RenderView.processInput, hs]; exact g2,
      fun ev h => g3 ev (by rw [RenderView.processInput, hr] at h; exact h)⟩

/-- Over any input sequence from an invariant-respecting state, every
routed event produced goes to a registered, enabled viewport. -/
theorem run_good (sys : RenderSystem) (pick : PickFn)
    (stopsP stopsT : RoutedEvent → Bool) :
    ∀ (seq : List ViewInput) (s : RenderView), goodState s →
      ∀ ev ∈ (RenderView.run sys pick stopsP stopsT s seq).1,
        ev.viewport ∈ s.viewports ∧ ev.viewport.enabled = true := by
  intro seq
  induction seq with
  | nil =>
    intro s _ ev h
    simp [RenderView.run] at h
  | cons i rest ih =>
    intro s hg ev h
    obtain ⟨hvps, hg2, hev⟩ := processInput_good sys pick stopsP stopsT s i hg
    simp only [RenderView.run, List.mem_append] at h
    rcases h with h | h
    · apply hev
      rcases hr : (s.processInput sys pick stopsP stopsT i).routed
        with _ | ev'
      · rw [hr] at h
        simp at h
      · rw [hr] at h
        simp at h
        subst h
        rfl
    · have := ih (s.processInput sys pick stopsP stopsT i).state hg2 ev h
      rw [hvps] at this
      exact this

/-- C2: over every sequence of pointer and trigger events processed from a
fresh view, every routed event that is produced carries a viewport that is
one of the view's registered viewports and is enabled (an event is only
ever produced with such a viewport attached; otherwise nothing is
produced). -/
theorem run_routed_viewport_registered (sys : RenderSystem)
    (pick : PickFn) (stopsP stopsT : RoutedEvent → Bool)
    (vps : List Viewport) (seq : List ViewInput) (ev : RoutedEvent)
    (h : ev ∈ (RenderView.run sys pick stopsP stopsT
      (RenderView.initial vps) seq).1) :
    ev.viewport ∈ vps ∧ ev.viewport.enabled = true :=
  run_good sys pick stopsP stopsT seq (RenderView.initial vps)
    (fun vp hvp => by cases hvp) ev h

/-- C2 witness: a primary down then a move inside `vpA` produce events on
the registered, enabled `vpA`. -/
theorem run_routed_viewport_registered_witness :
    evDown ∈ (RenderView.run sys1 pick1 noStops noStops
      (RenderView.initial [vpA])
      [ViewInput.pointer ePrimaryDown, ViewInput.pointer eMove]).1 ∧
    evDown.viewport ∈ [vpA] ∧ evDown.viewport.enabled = true :=
  ⟨by decide,
    run_routed_viewport_registered sys1 pick1 noStops noStops [vpA]
      [ViewInput.pointer ePrimaryDown, ViewInput.pointer eMove] evDown
      (by decide)⟩

/-- C8: for both public dispatch methods, the returned boolean is true
exactly when a routed event was produced, and the deliveries are: first
the render system, then the resolved viewport if and only if the render
system's handler did not set the stop-propagation flag; with no routed
event there is no delivery. -/
theorem dispatch_system_first_then_viewport (sys : RenderSystem)
    (pick : PickFn) (stops : RoutedEvent → Bool) (s : RenderView)
    (e : InputEvent) :
    ((s.onPointer sys pick stops e).handled =
        (s.onPointer sys pick stops e).routed.isSome ∧
      (s.onPointer sys pick stops e).steps =
        (match (s.onPointer sys pick stops e).routed with
          | some ev => DispatchStep.toSystem ev ::
              (if stops ev then []
               else [DispatchStep.toViewport ev.viewport ev])
          | none => [])) ∧
    ((s.onTrigger sys pick stops e).handled =
        (s.onTrigger sys pick stops e).routed.isSome ∧
      (s.onTrigger sys pick stops e).steps =
        (match (s.onTrigger sys pick stops e).routed with
          | some ev => DispatchStep.toSystem ev ::
              (if stops ev then []
               else [DispatchStep.toViewport ev.viewport ev])
          | none => [])) := by
  constructor
  · simp only [RenderView.onPointer]
    rcases hre : s.routeEvent sys pick e
      (e.ptype = EPointerEventType.hover ||
        (e.isPrimary && e.ptype = EPointerEventType.down))
      (e.isPrimary && e.ptype = EPointerEventType.down) with ⟨r, s1⟩
    cases r with
    | none => exact ⟨rfl, rfl⟩
    | some ev =>
      by_cases hs : stops ev <;> simp [hs]
  · simp only [RenderView.onTrigger]
    rcases hre : s.routeEvent sys pick e true true with ⟨r, s1⟩
    cases r with
    | none => exact ⟨rfl, rfl⟩
    | some ev =>
      by_cases hs : stops ev <;> simp [hs]

/-! ## Camera controller clamping -/

/-- Over a non-empty interval, `limit` lands in the interval. -/
theorem limit_mem (v lo hi : ℚ) (h : lo ≤ hi) :
    lo ≤ limit v lo hi ∧ limit v lo hi ≤ hi := by
  unfold limit
  by_cases h1 : v < lo
  · simp [h1, h]
  · by_cases h2 : v > hi
    · simp [h1, h2, h]
    · simp [h1, h2]
      exact ⟨not_lt.mp h1, not_lt.mp h2⟩

/-- With both orientation and offset enabled and non-empty limit
intervals, `updatePose` leaves the orbit and offset componentwise inside
their limits, for arbitrary deltas. -/
theorem updatePose_between_core (c : CameraController)
    (dX dY dScale dPitch dHead dRoll : ℚ)
    (hor : c.orientationEnabled = true) (hof : c.offsetEnabled = true)
    (h1 : Vec3.le c.minOrbit c.maxOrbit)
    (h2 : Vec3.le c.minOffset c.maxOffset) :
    Vec3.between c.minOrbit
      (c.updatePose dX dY dScale dPitch dHead dRoll).orbit c.maxOrbit ∧
    Vec3.between c.minOffset
      (c.updatePose dX dY dScale dPitch dHead dRoll).offset c.maxOffset := by
  obtain ⟨h1x, h1y, h1z⟩ := h1
  obtain ⟨h2x, h2y, h2z⟩ := h2
  simp only [CameraController.updatePose, hor, if_true, hof]
  constructor
  · exact ⟨(limit_mem _ _ _ h1x).1, (limit_mem _ _ _ h1x).2,
      (limit_mem _ _ _ h1y).1, (limit_mem _ _ _ h1y).2,
      (limit_mem _ _ _ h1z).1, (limit_mem _ _ _ h1z).2⟩
  · exact ⟨(limit_mem _ _ _ h2x).1, (limit_mem _ _ _ h2x).2,
      (limit_mem _ _ _ h2y).1, (limit_mem _ _ _ h2y).2,
      (limit_mem _ _ _ h2z).1, (limit_mem _ _ _ h2z).2⟩

/-- `updateByMode` keeps the clamping invariant: every mode either calls
`updatePose` (which establishes it) or leaves the pose unchanged. -/
theorem updateByMode_between (c : CameraController)
    (hor : c.orientationEnabled = true) (hof : c.offsetEnabled = true)
    (h1 : Vec3.le c.minOrbit c.maxOrbit)
    (h2 : Vec3.le c.minOffset c.maxOffset)
    (hpre1 : Vec3.between c.minOrbit c.orbit c.maxOrbit)
    (hpre2 : Vec3.between c.minOffset c.offset c.maxOffset) :
    Vec3.between c.minOrbit c.updateByMode.orbit c.maxOrbit ∧
    Vec3.between c.minOffset c.updateByMode.offset c.maxOffset := by
  unfold CameraController.updateByMode
  rcases hm : c.mode <;> simp only [hm]
  case off => exact ⟨hpre1, hpre2⟩
  case pan => exact updatePose_between_core c _ _ _ _ _ _ hor hof h1 h2
  case orbit => exact updatePose_between_core c _ _ _ _ _ _ hor hof h1 h2
  case dolly => exact updatePose_between_core c _ _ _ _ _ _ hor hof h1 h2
  case zoom => exact ⟨hpre1, hpre2⟩
  case panDolly => exact updatePose_between_core c _ _ _ _ _ _ hor hof h1 h2
  case roll => exact updatePose_between_core c _ _ _ _ _ _ hor hof h1 h2

/-- The per-frame `update` keeps the clamping invariant: each branch
either routes through `updatePose` / `updateByMode` or leaves the pose
unchanged. -/
theorem update_between (c : CameraController)
    (hor : c.orientationEnabled = true) (hof : c.offsetEnabled = true)
    (h1 : Vec3.le c.minOrbit c.maxOrbit)
    (h2 : Vec3.le c.minOffset c.maxOffset)
    (hpre1 : Vec3.between c.minOrbit c.orbit c.maxOrbit)
    (hpre2 : Vec3.between c.minOffset c.offset c.maxOffset) :
    Vec3.between c.minOrbit c.update.2.orbit c.maxOrbit ∧
    Vec3.between c.minOffset c.update.2.offset c.maxOffset := by
  unfold CameraController.update
  by_cases ha : c.phase = EManipPhase.off ∧ c.deltaWheel = 0
  · simp only [if_pos ha]
    exact ⟨hpre1, hpre2⟩
  · simp only [if_neg ha]
    by_cases hw : c.deltaWheel ≠ 0
    · simp only [if_pos hw]
      simpa using
        updatePose_between_core c 0 0 (c.deltaWheel * (7 / 100) + 1)
          0 0 0 hor hof h1 h2
    · simp only [if_neg hw]
      by_cases hact : c.phase = EManipPhase.active
      · simp only [if_pos hact]
        by_cases hz : c.deltaX = 0 ∧ c.deltaY = 0 ∧ c.deltaPinch = 1
        · simp only [if_pos hz]
          exact ⟨hpre1, hpre2⟩
        · simp only [if_neg hz]
          simpa using
            updateByMode_between c hor hof h1 h2 hpre1 hpre2
      · simp only [if_neg hact]
        by_cases hrel : c.phase = EManipPhase.release
        · simp only [if_pos hrel]
          have H := updateByMode_between
            { c with
              deltaX := c.deltaX * (85 / 100)
              deltaY := c.deltaY * (85 / 100)
              deltaPinch := 1 } hor hof h1 h2 hpre1 hpre2
          split
          · simpa using H
          · simpa using H
        · simp only [if_neg hrel]
          exact ⟨hpre1, hpre2⟩

/-- C10: after any `updatePose` with orientation and offset enabled and
non-empty limit intervals, every orbit component lies in
[minOrbit, maxOrbit] and every offset component lies in
[minOffset, maxOffset], for arbitrary deltas; consequently the per-frame
`update` (driving every pointer- and wheel-initiated pose change)
preserves this clamping invariant. -/
theorem updatePose_clamps (c : CameraController)
    (dX dY dScale dPitch dHead dRoll : ℚ)
    (hor : c.orientationEnabled = true) (hof : c.offsetEnabled = true)
    (h1 : Vec3.le c.minOrbit c.maxOrbit)
    (h2 : Vec3.le c.minOffset c.maxOffset) :
    (Vec3.between c.minOrbit
        (c.updatePose dX dY dScale dPitch dHead dRoll).orbit c.maxOrbit ∧
      Vec3.between c.minOffset
        (c.updatePose dX dY dScale dPitch dHead dRoll).offset
        c.maxOffset) ∧
    (Vec3.between c.minOrbit c.orbit c.maxOrbit →
      Vec3.between c.minOffset c.offset c.maxOffset →
      Vec3.between c.minOrbit c.update.2.orbit c.maxOrbit ∧
      Vec3.between c.minOffset c.update.2.offset c.maxOffset) :=
  ⟨updatePose_between_core c dX dY dScale dPitch dHead dRoll hor hof h1 h2,
    fun hpre1 hpre2 => update_between c hor hof h1 h2 hpre1 hpre2⟩

/-- A sample camera controller with both manipulations enabled, non-empty
limit intervals, and an in-range pose. -/
def cc0 : CameraController :=
  { orbit := ⟨0, 0, 0⟩
    offset := ⟨0, 0, 50⟩
    minOrbit := ⟨-90, -180, -180⟩
    maxOrbit := ⟨90, 180, 180⟩
    minOffset := ⟨-100, -100, 0⟩
    maxOffset := ⟨100, 100, 1000⟩
    orientationEnabled := true
    offsetEnabled := true
    mode := EManipMode.orbit
    phase := EManipPhase.active
    deltaX := 2
    deltaY := 3
    deltaPinch := 1
    deltaWheel := 0
    viewportWidth := 100
    viewportHeight := 100 }

/-- C10 witness. -/
theorem updatePose_clamps_witness :
    (Vec3.between cc0.minOrbit
        (cc0.updatePose 1 2 3 4 5 6).orbit cc0.maxOrbit ∧
      Vec3.between cc0.minOffset
        (cc0.updatePose 1 2 3 4 5 6).offset cc0.maxOffset) ∧
    (Vec3.between cc0.minOrbit cc0.orbit cc0.maxOrbit →
      Vec3.between cc0.minOffset cc0.offset cc0.maxOffset →
      Vec3.between cc0.minOrbit cc0.update.2.orbit cc0.maxOrbit ∧
      Vec3.between cc0.minOffset cc0.update.2.offset cc0.maxOffset) :=
  updatePose_clamps cc0 1 2 3 4 5 6 rfl rfl (by decide) (by decide)

end FFThree
